import Mathlib

/-!
Shallow embedding of the retry/backoff request pipeline of
`src/index.ts` (the Cloudflare worker calling the OpenAI chat-completion
endpoint with exponential backoff and rate-limit awareness).

Durations are modelled as rationals (milliseconds).  The JavaScript
`Math.random() * 1000` jitter is modelled as an explicit parameter
`jitter : ℚ`; the sequence of upstream responses is modelled as an
oracle `up : Nat → UpstreamEvent` giving the outcome of each fetch
attempt, and the per-attempt jitter as an oracle `jit : Nat → ℚ`.
-/

/-- The retry configuration record (`RETRY_CONFIG` shape in the source). -/
structure RetryConfig where
  maxRetries : Nat
  baseDelay : ℚ
  maxDelay : ℚ
deriving DecidableEq

/-- `const RETRY_CONFIG = { maxRetries: 3, baseDelay: 1000, maxDelay: 10000 }`. -/
def RETRY_CONFIG : RetryConfig :=
  { maxRetries := 3, baseDelay := 1000, maxDelay := 10000 }

/-- `getBackoffDelay(attempt, baseDelay, maxDelay)` from the source:
`min(baseDelay * 2^attempt + jitter, maxDelay)` where `jitter` is
`Math.random() * 1000`, passed here explicitly. -/
def getBackoffDelay (attempt : Nat) (baseDelay maxDelay jitter : ℚ) : ℚ :=
  min (baseDelay * 2 ^ attempt + jitter) maxDelay

/-- Substring occurrence over character lists (helper for `jsIncludes`). -/
def listIncludes : List Char → List Char → Bool
  | _, [] => true
  | [], _ :: _ => false
  | c :: cs, p => p.isPrefixOf (c :: cs) || listIncludes cs p

/-- Model of JavaScript `String.prototype.includes`. -/
def jsIncludes (s pat : String) : Bool :=
  listIncludes s.data pat.data

/-- Value of a non-empty run of leading decimal digits; `none` when the
list does not start with a digit (helper for `jsParseInt`). -/
def leadingDigitsValue (l : List Char) : Option Nat :=
  let ds := l.takeWhile Char.isDigit
  if ds.isEmpty then none
  else some (ds.foldl (fun acc c => acc * 10 + (c.toNat - 48)) 0)

/-- Model of JavaScript `parseInt` in base 10: skip leading whitespace,
optional sign, then leading decimal digits; `none` models `NaN` (no
digits).  The `0x` hexadecimal form accepted by JavaScript is not
modelled; no claim depends on such an input. -/
def jsParseInt (s : String) : Option Int :=
  match s.data.dropWhile Char.isWhitespace with
  | '-' :: rest => (leadingDigitsValue rest).map (fun n => -(n : Int))
  | '+' :: rest => (leadingDigitsValue rest).map (fun n => (n : Int))
  | rest => (leadingDigitsValue rest).map (fun n => (n : Int))

/-- Token usage block of a chat-completion response body. -/
structure Usage where
  prompt_tokens : Nat
  completion_tokens : Nat
  total_tokens : Nat
deriving DecidableEq

/-- A chat message (only the `content` field is read by the worker). -/
structure ChatMessage where
  content : String
deriving DecidableEq

/-- One element of the `choices` array of a response body. -/
structure Choice where
  message : ChatMessage
deriving DecidableEq

/-- Parsed JSON body of a successful chat-completion response, in the
shape the worker reads (`choices`, `usage`, `model`). -/
structure ResponseData where
  choices : List Choice
  usage : Usage
  model : String
deriving DecidableEq

/-- Outcome of one `fetch` call: either an HTTP response (status, status
text, optional `Retry-After` header value, parsed body for the success
case) or a transport-level fault thrown with the given message. -/
inductive UpstreamEvent where
  | response (status : Nat) (statusText : String) (retryAfter : Option String)
      (body : ResponseData)
  | fault (message : String)
deriving DecidableEq

/-- Message of the error thrown when retries are exhausted on HTTP 429. -/
def rateLimitErrorMessage : String :=
  "API速率限制：请求过于频繁，请稍后再试。建议等待1-2分钟。"

/-- Message of the error thrown on HTTP 401. -/
def authErrorMessage : String :=
  "API认证失败：请检查OpenAI API密钥是否正确"

/-- Message of the error thrown on HTTP 403. -/
def permissionErrorMessage : String :=
  "API权限错误：您的账户可能没有足够的权限或余额"

/-- Message of the generic error thrown for any other non-success
status: `OpenAI API错误 (status): statusText`. -/
def apiErrorMessage (status : Nat) (statusText : String) : String :=
  "OpenAI API错误 (" ++ toString status ++ "): " ++ statusText

/-- A JavaScript number that may be `NaN` (produced by `parseInt` on a
non-numeric `Retry-After` header, then propagated through `* 1000`). -/
inductive JsNum where
  | num (q : ℚ)
  | nan
deriving DecidableEq

/-- Wait time chosen in the 429 branch:
`retryAfter ? parseInt(retryAfter) * 1000 : getBackoffDelay(...)`.
A `null` or empty (falsy) header selects the backoff formula; a
non-empty header goes through `parseInt`, yielding `NaN` when it does
not parse. -/
def rateLimitWait (retryAfter : Option String) (attempt : Nat) (cfg : RetryConfig)
    (jitter : ℚ) : JsNum :=
  match retryAfter with
  | none => JsNum.num (getBackoffDelay attempt cfg.baseDelay cfg.maxDelay jitter)
  | some s =>
    if s = "" then JsNum.num (getBackoffDelay attempt cfg.baseDelay cfg.maxDelay jitter)
    else
      match jsParseInt s with
      | some n => JsNum.num ((n : ℚ) * 1000)
      | none => JsNum.nan

/-- Control-flow outcome of one iteration of the retry loop body:
`return data`, `continue` after `await delay(wait)`, or `throw`. -/
inductive AttemptStep where
  | ret (body : ResponseData)
  | retryAfterWait (wait : JsNum)
  | throwErr (message : String)
deriving DecidableEq

/-- The `try` block of one loop iteration of `callOpenAIWithRetry`:
success check (`response.ok`, i.e. status in 200..299), then the 429,
401, 403, ≥500 branches, then the generic throw. -/
def attemptStep (cfg : RetryConfig) (attempt : Nat) (ev : UpstreamEvent)
    (jitter : ℚ) : AttemptStep :=
  match ev with
  | UpstreamEvent.fault msg => AttemptStep.throwErr msg
  | UpstreamEvent.response status statusText retryAfter body =>
    if 200 ≤ status ∧ status ≤ 299 then AttemptStep.ret body
    else if status = 429 then
      if attempt < cfg.maxRetries then
        AttemptStep.retryAfterWait (rateLimitWait retryAfter attempt cfg jitter)
      else AttemptStep.throwErr rateLimitErrorMessage
    else if status = 401 then AttemptStep.throwErr authErrorMessage
    else if status = 403 then AttemptStep.throwErr permissionErrorMessage
    else if 500 ≤ status ∧ attempt < cfg.maxRetries then
      AttemptStep.retryAfterWait
        (JsNum.num (getBackoffDelay attempt cfg.baseDelay cfg.maxDelay jitter))
    else AttemptStep.throwErr (apiErrorMessage status statusText)

/-- One loop iteration including the `catch` block: a thrown error whose
message includes `fetch` or `network` is retried (with backoff) while
attempts remain; every other thrown error is rethrown. -/
def attemptOutcome (cfg : RetryConfig) (attempt : Nat) (ev : UpstreamEvent)
    (jitter : ℚ) : AttemptStep :=
  match attemptStep cfg attempt ev jitter with
  | AttemptStep.ret b => AttemptStep.ret b
  | AttemptStep.retryAfterWait w => AttemptStep.retryAfterWait w
  | AttemptStep.throwErr msg =>
    if attempt < cfg.maxRetries ∧ (jsIncludes msg "fetch" || jsIncludes msg "network") = true
    then AttemptStep.retryAfterWait
      (JsNum.num (getBackoffDelay attempt cfg.baseDelay cfg.maxDelay jitter))
    else AttemptStep.throwErr msg

/-- Final outcome of `callOpenAIWithRetry`: a returned body, a thrown
error message, or the (unreachable) fall-through of the `for` loop,
which in JavaScript would return `undefined`. -/
inductive RunResult where
  | ok (body : ResponseData)
  | err (message : String)
  | loopExit
deriving DecidableEq

/-- Observable trace of one invocation: the final result, the number of
fetch attempts performed, and the waits performed in order. -/
structure RunTrace where
  result : RunResult
  attempts : Nat
  waits : List JsNum
deriving DecidableEq

/-- Record one more (earlier) attempt followed by a wait before the rest
of the run. -/
def prependWait (w : JsNum) (t : RunTrace) : RunTrace :=
  { result := t.result, attempts := t.attempts + 1, waits := w :: t.waits }

/-- The retry loop from attempt index `a`, with `fuel` loop iterations
remaining (`fuel = maxRetries + 1 - a` at every reachable call). -/
def runAux (cfg : RetryConfig) (up : Nat → UpstreamEvent) (jit : Nat → ℚ) :
    Nat → Nat → RunTrace
  | _, 0 => { result := RunResult.loopExit, attempts := 0, waits := [] }
  | a, f + 1 =>
    match attemptOutcome cfg a (up a) (jit a) with
    | AttemptStep.ret b => { result := RunResult.ok b, attempts := 1, waits := [] }
    | AttemptStep.throwErr m => { result := RunResult.err m, attempts := 1, waits := [] }
    | AttemptStep.retryAfterWait w => prependWait w (runAux cfg up jit (a + 1) f)

/-- `callOpenAIWithRetry`: the loop `for (attempt = 0; attempt <=
maxRetries; attempt++)`, i.e. `maxRetries + 1` iterations starting at
attempt 0. -/
def callOpenAIWithRetry (cfg : RetryConfig) (up : Nat → UpstreamEvent)
    (jit : Nat → ℚ) : RunTrace :=
  runAux cfg up jit 0 (cfg.maxRetries + 1)

/-- Status-code mapping of the worker's outer error handler: message
substrings select 429 / 401 / 403, everything else maps to 500. -/
def errorStatusCode (msg : String) : Nat :=
  if jsIncludes msg "速率限制" || jsIncludes msg "Too Many Requests" then 429
  else if jsIncludes msg "认证失败" || jsIncludes msg "Unauthorized" then 401
  else if jsIncludes msg "权限错误" || jsIncludes msg "Forbidden" then 403
  else 500

/-- Message of the TypeError thrown by `data.choices[0].message` when
the `choices` array is empty (quotes of the JavaScript runtime message
elided). -/
def typeErrorEmptyChoicesMessage : String :=
  "Cannot read properties of undefined (reading message)"

/-- Message of the TypeError thrown by `data.choices` when
`callOpenAIWithRetry` were to return `undefined` (loop fall-through;
unreachable). -/
def typeErrorNoDataMessage : String :=
  "Cannot read properties of undefined (reading choices)"

/-- Reply produced by the worker's POST handler: either the success JSON
`{text, usage, model}` or an error JSON with an HTTP status code. -/
inductive WorkerReply where
  | success (text : String) (usage : Usage) (model : String)
  | failure (status : Nat) (errMsg : String)
deriving DecidableEq

/-- The POST handler's reply construction: on a returned body it reads
`data.choices[0].message.content` (throwing a TypeError when `choices`
is empty), and any thrown error is mapped through `errorStatusCode`. -/
def workerRespond : RunResult → WorkerReply
  | RunResult.ok d =>
    match d.choices with
    | [] => WorkerReply.failure (errorStatusCode typeErrorEmptyChoicesMessage)
        typeErrorEmptyChoicesMessage
    | c :: _ => WorkerReply.success c.message.content d.usage d.model
  | RunResult.err m => WorkerReply.failure (errorStatusCode m) m
  | RunResult.loopExit => WorkerReply.failure (errorStatusCode typeErrorNoDataMessage)
      typeErrorNoDataMessage

/-- The whole POST pipeline: run the retry client, then build the reply. -/
def handlePost (cfg : RetryConfig) (up : Nat → UpstreamEvent) (jit : Nat → ℚ) :
    WorkerReply :=
  workerRespond (callOpenAIWithRetry cfg up jit).result

/-- Generation options passed by the caller; `none` models an absent
(`undefined`) field. -/
structure CallOptions where
  model : Option String
  temperature : Option ℚ
  max_tokens : Option Int
deriving DecidableEq

/-- The outbound request body built by `callOpenAIWithRetry` (the single
user-role message is represented by its content). -/
structure RequestBody where
  model : String
  userContent : String
  temperature : ℚ
  max_tokens : Int
deriving DecidableEq

/-- Request-body construction with `||` defaulting: a falsy supplied
value (absent, empty string, or zero) is replaced by the default. -/
def buildRequestBody (prompt : String) (o : CallOptions) : RequestBody :=
  { model := match o.model with
      | some s => if s = "" then "gpt-3.5-turbo" else s
      | none => "gpt-3.5-turbo",
    userContent := prompt,
    temperature := match o.temperature with
      | some t => if t = 0 then 0.7 else t
      | none => 0.7,
    max_tokens := match o.max_tokens with
      | some n => if n = 0 then 500 else n
      | none => 500 }

/-- A placeholder body for attempts whose body is never read. -/
def emptyData : ResponseData :=
  { choices := [], usage := { prompt_tokens := 0, completion_tokens := 0, total_tokens := 0 },
    model := "" }

/-- The messages one loop iteration can throw for a given fetch outcome:
for an HTTP response, one of the three fixed classified messages or the
generic API error carrying that response's status and status text; for
a transport fault, the fault's own message, unchanged. -/
def eventThrowMessage : UpstreamEvent → String → Prop
  | UpstreamEvent.response s st _ _, m =>
      m = rateLimitErrorMessage ∨ m = authErrorMessage ∨
      m = permissionErrorMessage ∨ m = apiErrorMessage s st
  | UpstreamEvent.fault msg, m => m = msg

/-- The auth error message contains neither `fetch` nor `network`. -/
theorem authMsg_not_network_class :
    (jsIncludes authErrorMessage "fetch" || jsIncludes authErrorMessage "network") = false := by
  decide

/-- The permission error message contains neither `fetch` nor `network`. -/
theorem permMsg_not_network_class :
    (jsIncludes permissionErrorMessage "fetch"
      || jsIncludes permissionErrorMessage "network") = false := by
  decide

/-- The rate-limit error message contains neither `fetch` nor `network`. -/
theorem rateMsg_not_network_class :
    (jsIncludes rateLimitErrorMessage "fetch"
      || jsIncludes rateLimitErrorMessage "network") = false := by
  decide

/-- The number of attempts a run performs is bounded by the loop fuel. -/
theorem runAux_attempts_le (cfg : RetryConfig) (up : Nat → UpstreamEvent)
    (jit : Nat → ℚ) : ∀ f a, (runAux cfg up jit a f).attempts ≤ f := by
  intro f
  induction f with
  | zero => intro a; simp [runAux]
  | succ f ih =>
    intro a
    simp only [runAux]
    cases h : attemptOutcome cfg a (up a) (jit a) with
    | ret b => simp
    | throwErr m => simp
    | retryAfterWait w =>
      simpa [prependWait] using Nat.succ_le_succ (ih (a + 1))

/-- C1: without a server-supplied hint, for every attempt index below
`maxRetries` and every jitter in `[0, 1000)`, the backoff wait equals
`min(baseDelay * 2^attempt + jitter, maxDelay)` and lies in the interval
`[baseDelay * 2^attempt, baseDelay * 2^attempt + 1000]` capped at
`maxDelay`. -/
theorem backoff_formula_and_bounds (attempt maxRetries : Nat)
    (baseDelay maxDelay jitter : ℚ) (hlt : attempt < maxRetries)
    (hj0 : 0 ≤ jitter) (hj1 : jitter < 1000) :
    getBackoffDelay attempt baseDelay maxDelay jitter
      = min (baseDelay * 2 ^ attempt + jitter) maxDelay ∧
    min (baseDelay * 2 ^ attempt) maxDelay
      ≤ getBackoffDelay attempt baseDelay maxDelay jitter ∧
    getBackoffDelay attempt baseDelay maxDelay jitter
      ≤ min (baseDelay * 2 ^ attempt + 1000) maxDelay := by
  refine ⟨rfl, ?_, ?_⟩
  · exact min_le_min (by linarith) le_rfl
  · exact min_le_min (by linarith) le_rfl

/-- Witness for C1 at attempt 0, maxRetries 3, the shipped delays, and
jitter 500. -/
theorem backoff_formula_and_bounds_witness :
    getBackoffDelay 0 1000 10000 500 = min (1000 * 2 ^ 0 + 500) 10000 ∧
    min (1000 * 2 ^ 0) 10000 ≤ getBackoffDelay 0 1000 10000 500 ∧
    getBackoffDelay 0 1000 10000 500 ≤ min ((1000 : ℚ) * 2 ^ 0 + 1000) 10000 :=
  backoff_formula_and_bounds 0 3 1000 10000 500 (by decide) (by norm_num) (by norm_num)

/-- C2: a single invocation performs at most `maxRetries + 1` fetch
attempts, for every sequence of upstream responses and faults; with the
shipped configuration that is at most 4 attempts. -/
theorem run_performs_at_most_maxRetries_plus_one_attempts (cfg : RetryConfig)
    (up : Nat → UpstreamEvent) (jit : Nat → ℚ) :
    (callOpenAIWithRetry cfg up jit).attempts ≤ cfg.maxRetries + 1 ∧
    (callOpenAIWithRetry RETRY_CONFIG up jit).attempts ≤ 4 :=
  ⟨runAux_attempts_le cfg up jit (cfg.maxRetries + 1) 0,
   runAux_attempts_le RETRY_CONFIG up jit 4 0⟩

/-- C3: whatever `maxRetries` is, a 401 (resp. 403) on the first attempt
ends the run after exactly one attempt with the authentication
(resp. permission) error, mapped to HTTP 401 (resp. 403) by the
handler's classification. -/
theorem status_401_403_single_attempt (cfg : RetryConfig)
    (up : Nat → UpstreamEvent) (jit : Nat → ℚ) (st : String)
    (ra : Option String) (bd : ResponseData) :
    (up 0 = UpstreamEvent.response 401 st ra bd →
      callOpenAIWithRetry cfg up jit =
        { result := RunResult.err authErrorMessage, attempts := 1, waits := [] } ∧
      errorStatusCode authErrorMessage = 401) ∧
    (up 0 = UpstreamEvent.response 403 st ra bd →
      callOpenAIWithRetry cfg up jit =
        { result := RunResult.err permissionErrorMessage, attempts := 1, waits := [] } ∧
      errorStatusCode permissionErrorMessage = 403) := by
  constructor
  · intro h
    refine ⟨?_, by decide⟩
    unfold callOpenAIWithRetry
    simp only [runAux, h, attemptOutcome, attemptStep]
    simp [authMsg_not_network_class]
  · intro h
    refine ⟨?_, by decide⟩
    unfold callOpenAIWithRetry
    simp only [runAux, h, attemptOutcome, attemptStep]
    simp [permMsg_not_network_class]

/-- Witness for C3: a concrete 401 run with the shipped configuration. -/
theorem status_401_403_single_attempt_witness :
    callOpenAIWithRetry RETRY_CONFIG
        (fun i => UpstreamEvent.response 401 "Unauthorized" none emptyData)
        (fun i => 0) =
      { result := RunResult.err authErrorMessage, attempts := 1, waits := [] } ∧
    errorStatusCode authErrorMessage = 401 :=
  (status_401_403_single_attempt RETRY_CONFIG
    (fun i => UpstreamEvent.response 401 "Unauthorized" none emptyData)
    (fun i => 0) "Unauthorized" none emptyData).1 rfl

/-- C10: a falsy explicitly-supplied generation option (temperature 0,
max_tokens 0, or empty model string) is silently replaced by the
default, because `||` tests truthiness rather than presence. -/
theorem falsy_options_replaced_by_defaults (prompt : String) (o : CallOptions) :
    (o.temperature = some 0 → (buildRequestBody prompt o).temperature = 0.7) ∧
    (o.max_tokens = some 0 → (buildRequestBody prompt o).max_tokens = 500) ∧
    (o.model = some "" → (buildRequestBody prompt o).model = "gpt-3.5-turbo") := by
  refine ⟨fun h => ?_, fun h => ?_, fun h => ?_⟩ <;> simp [buildRequestBody, h]

/-- Witness for C10: all three falsy options supplied concretely. -/
theorem falsy_options_replaced_by_defaults_witness :
    (buildRequestBody "hi" ⟨some "", some 0, some 0⟩).temperature = 0.7 ∧
    (buildRequestBody "hi" ⟨some "", some 0, some 0⟩).max_tokens = 500 ∧
    (buildRequestBody "hi" ⟨some "", some 0, some 0⟩).model = "gpt-3.5-turbo" :=
  ⟨(falsy_options_replaced_by_defaults "hi" ⟨some "", some 0, some 0⟩).1 rfl,
   (falsy_options_replaced_by_defaults "hi" ⟨some "", some 0, some 0⟩).2.1 rfl,
   (falsy_options_replaced_by_defaults "hi" ⟨some "", some 0, some 0⟩).2.2 rfl⟩

/-- When every attempt below `maxRetries` ends in a retry-with-wait and
the attempt at index `maxRetries` throws `lastMsg`, a run started at
attempt `a` with matching fuel ends with `lastMsg` after using every
remaining attempt. -/
theorem runAux_retry_exhaust (cfg : RetryConfig) (up : Nat → UpstreamEvent)
    (jit : Nat → ℚ) (lastMsg : String)
    (hstep : ∀ a, a < cfg.maxRetries →
      ∃ w, attemptOutcome cfg a (up a) (jit a) = AttemptStep.retryAfterWait w)
    (hlast : attemptOutcome cfg cfg.maxRetries (up cfg.maxRetries) (jit cfg.maxRetries)
      = AttemptStep.throwErr lastMsg) :
    ∀ f a, 0 < f → a + f = cfg.maxRetries + 1 →
      (runAux cfg up jit a f).result = RunResult.err lastMsg ∧
      (runAux cfg up jit a f).attempts = f := by
  intro f
  induction f with
  | zero => intro a h0 _; exact absurd h0 (by simp)
  | succ f ih =>
    intro a _ hsum
    by_cases ha : a < cfg.maxRetries
    · obtain ⟨w, hw⟩ := hstep a ha
      have hf : 0 < f := by omega
      have hrec := ih (a + 1) hf (by omega)
      simp only [runAux, hw, prependWait]
      exact ⟨hrec.1, by rw [hrec.2]⟩
    · have hf0 : f = 0 := by omega
      have haeq : a = cfg.maxRetries := by omega
      subst hf0
      subst haeq
      simp [runAux, hlast]

/-- C4: when every attempt answers 429, the run performs exactly
`maxRetries + 1` attempts and ends with the rate-limit error, whose
message carries the 1–2 minute guidance and which the handler maps to
HTTP 429. -/
theorem all_429_exhausts_then_rate_limited (cfg : RetryConfig)
    (up : Nat → UpstreamEvent) (jit : Nat → ℚ) (st : Nat → String)
    (ra : Nat → Option String) (bd : Nat → ResponseData)
    (h429 : ∀ i, up i = UpstreamEvent.response 429 (st i) (ra i) (bd i)) :
    (callOpenAIWithRetry cfg up jit).result = RunResult.err rateLimitErrorMessage ∧
    (callOpenAIWithRetry cfg up jit).attempts = cfg.maxRetries + 1 ∧
    jsIncludes rateLimitErrorMessage "1-2分钟" = true ∧
    errorStatusCode rateLimitErrorMessage = 429 := by
  have hstep : ∀ a, a < cfg.maxRetries →
      ∃ w, attemptOutcome cfg a (up a) (jit a) = AttemptStep.retryAfterWait w := by
    intro a ha
    refine ⟨rateLimitWait (ra a) a cfg (jit a), ?_⟩
    simp [attemptOutcome, attemptStep, h429 a, ha]
  have hlast : attemptOutcome cfg cfg.maxRetries (up cfg.maxRetries)
      (jit cfg.maxRetries) = AttemptStep.throwErr rateLimitErrorMessage := by
    simp [attemptOutcome, attemptStep, h429 cfg.maxRetries]
  have h := runAux_retry_exhaust cfg up jit rateLimitErrorMessage hstep hlast
    (cfg.maxRetries + 1) 0 (by omega) (by omega)
  exact ⟨h.1, h.2, by decide, by decide⟩

/-- Witness for C4: every attempt answers 429 with a `Retry-After: 2`
header, under the shipped configuration. -/
theorem all_429_exhausts_then_rate_limited_witness :
    (callOpenAIWithRetry RETRY_CONFIG
        (fun i => UpstreamEvent.response 429 "Too Many Requests" (some "2") emptyData)
        (fun i => 0)).result = RunResult.err rateLimitErrorMessage ∧
    (callOpenAIWithRetry RETRY_CONFIG
        (fun i => UpstreamEvent.response 429 "Too Many Requests" (some "2") emptyData)
        (fun i => 0)).attempts = 4 ∧
    jsIncludes rateLimitErrorMessage "1-2分钟" = true ∧
    errorStatusCode rateLimitErrorMessage = 429 :=
  all_429_exhausts_then_rate_limited RETRY_CONFIG
    (fun i => UpstreamEvent.response 429 "Too Many Requests" (some "2") emptyData)
    (fun i => 0) (fun i => "Too Many Requests") (fun i => some "2")
    (fun i => emptyData) (fun i => rfl)

/-- C5 counterexample: a present but unparseable `Retry-After` header
("abc") does not fall back to the exponential backoff formula — the
computed wait is `parseInt("abc") * 1000 = NaN`. -/
theorem unparseable_retry_after_counterexample :
    rateLimitWait (some "abc") 0 RETRY_CONFIG 500
      ≠ JsNum.num (getBackoffDelay 0 RETRY_CONFIG.baseDelay RETRY_CONFIG.maxDelay 500) := by
  decide

/-- C5 (amended): while attempts remain, a 429 response waits
`rateLimitWait`; a header that parses as integer `n` gives `n * 1000`
ms; an absent or empty header gives the exponential backoff formula; a
present non-empty header that does not parse gives `NaN` (which
`setTimeout` treats as a zero delay), not the backoff formula. -/
theorem retry_after_header_wait (cfg : RetryConfig) (a : Nat) (j : ℚ)
    (st : String) (bd : ResponseData) (ra : Option String)
    (ha : a < cfg.maxRetries) :
    attemptOutcome cfg a (UpstreamEvent.response 429 st ra bd) j
      = AttemptStep.retryAfterWait (rateLimitWait ra a cfg j) ∧
    (∀ s n, ra = some s → jsParseInt s = some n →
      rateLimitWait ra a cfg j = JsNum.num ((n : ℚ) * 1000)) ∧
    (ra = none → rateLimitWait ra a cfg j
      = JsNum.num (getBackoffDelay a cfg.baseDelay cfg.maxDelay j)) ∧
    (ra = some "" → rateLimitWait ra a cfg j
      = JsNum.num (getBackoffDelay a cfg.baseDelay cfg.maxDelay j)) ∧
    (∀ s, ra = some s → s ≠ "" → jsParseInt s = none →
      rateLimitWait ra a cfg j = JsNum.nan) := by
  refine ⟨?_, ?_, ?_, ?_, ?_⟩
  · simp [attemptOutcome, attemptStep, ha]
  · rintro s n rfl hp
    have hs : s ≠ "" := by
      rintro rfl
      rw [show jsParseInt "" = none from by decide] at hp
      cases hp
    simp [rateLimitWait, hs, hp]
  · rintro rfl
    rfl
  · rintro rfl
    simp [rateLimitWait]
  · rintro s rfl hs hp
    simp [rateLimitWait, hs, hp]

/-- Witness for C5 at attempt 0 with header `Retry-After: 2` under the
shipped configuration. -/
theorem retry_after_header_wait_witness :
    attemptOutcome RETRY_CONFIG 0
        (UpstreamEvent.response 429 "Too Many Requests" (some "2") emptyData) 0
      = AttemptStep.retryAfterWait (rateLimitWait (some "2") 0 RETRY_CONFIG 0) ∧
    rateLimitWait (some "2") 0 RETRY_CONFIG 0 = JsNum.num ((2 : ℚ) * 1000) :=
  have h := retry_after_header_wait RETRY_CONFIG 0 0 "Too Many Requests" emptyData
    (some "2") (by decide)
  ⟨h.1, h.2.1 "2" 2 rfl (by decide)⟩

/-- C6: a response with status ≥ 500 is retried after an
exponential-backoff wait while attempts remain; with no attempt left
the run ends with the generic API error message, which carries the last
received status code. -/
theorem server_error_retry_then_terminal (cfg : RetryConfig)
    (up : Nat → UpstreamEvent) (jit : Nat → ℚ) (a f s : Nat)
    (st : String) (ra : Option String) (bd : ResponseData)
    (hresp : up a = UpstreamEvent.response s st ra bd) (hs : 500 ≤ s) :
    (a < cfg.maxRetries →
      runAux cfg up jit a (f + 1)
        = prependWait
            (JsNum.num (getBackoffDelay a cfg.baseDelay cfg.maxDelay (jit a)))
            (runAux cfg up jit (a + 1) f)) ∧
    (cfg.maxRetries ≤ a →
      runAux cfg up jit a (f + 1)
        = { result := RunResult.err (apiErrorMessage s st), attempts := 1,
            waits := [] }) := by
  have hnotok : ¬ (200 ≤ s ∧ s ≤ 299) := by omega
  have h429 : s ≠ 429 := by omega
  have h401 : s ≠ 401 := by omega
  have h403 : s ≠ 403 := by omega
  constructor
  · intro ha
    simp only [runAux, hresp]
    simp [attemptOutcome, attemptStep, hnotok, h429, h401, h403, hs, ha]
  · intro ha
    have ha2 : ¬ a < cfg.maxRetries := not_lt.mpr ha
    simp only [runAux, hresp]
    simp [attemptOutcome, attemptStep, hnotok, h429, h401, h403, hs, ha2]

/-- Witness for C6: a 500 on the first attempt of the shipped
configuration backs off and retries. -/
theorem server_error_retry_then_terminal_witness :
    runAux RETRY_CONFIG
        (fun i => UpstreamEvent.response 500 "Internal Server Error" none emptyData)
        (fun i => 0) 0 4
      = prependWait
          (JsNum.num (getBackoffDelay 0 RETRY_CONFIG.baseDelay RETRY_CONFIG.maxDelay 0))
          (runAux RETRY_CONFIG
            (fun i => UpstreamEvent.response 500 "Internal Server Error" none emptyData)
            (fun i => 0) 1 3) :=
  (server_error_retry_then_terminal RETRY_CONFIG
    (fun i => UpstreamEvent.response 500 "Internal Server Error" none emptyData)
    (fun i => 0) 0 3 500 "Internal Server Error" none emptyData rfl (by decide)).1
    (by decide)

/-- C7: the upstream sequence 500, 500, 200 with `maxRetries ≥ 2`
returns the third attempt's body after exactly three attempts with
exactly the two backoff waits. -/
theorem sequence_500_500_200_success (cfg : RetryConfig) (jit : Nat → ℚ)
    (b : ResponseData) (h2 : 2 ≤ cfg.maxRetries) :
    callOpenAIWithRetry cfg
        (fun i => if i < 2
          then UpstreamEvent.response 500 "Internal Server Error" none emptyData
          else UpstreamEvent.response 200 "OK" none b) jit
      = { result := RunResult.ok b, attempts := 3,
          waits := [JsNum.num (getBackoffDelay 0 cfg.baseDelay cfg.maxDelay (jit 0)),
                    JsNum.num (getBackoffDelay 1 cfg.baseDelay cfg.maxDelay (jit 1))] } := by
  obtain ⟨k, hk⟩ : ∃ k, cfg.maxRetries = k + 2 := ⟨cfg.maxRetries - 2, by omega⟩
  have c0 : 0 < k + 2 := by omega
  have c1 : 1 < k + 2 := by omega
  unfold callOpenAIWithRetry
  simp [runAux, attemptOutcome, attemptStep, prependWait, hk, c0, c1]

/-- Witness for C7: the shipped configuration with the spec's example
body on the third attempt. -/
theorem sequence_500_500_200_success_witness :
    callOpenAIWithRetry RETRY_CONFIG
        (fun i => if i < 2
          then UpstreamEvent.response 500 "Internal Server Error" none emptyData
          else UpstreamEvent.response 200 "OK" none
            { choices := [{ message := { content := "hi" } }],
              usage := { prompt_tokens := 1, completion_tokens := 1, total_tokens := 2 },
              model := "m" }) (fun i => 0)
      = { result := RunResult.ok
            { choices := [{ message := { content := "hi" } }],
              usage := { prompt_tokens := 1, completion_tokens := 1, total_tokens := 2 },
              model := "m" },
          attempts := 3,
          waits := [JsNum.num (getBackoffDelay 0 RETRY_CONFIG.baseDelay RETRY_CONFIG.maxDelay 0),
                    JsNum.num (getBackoffDelay 1 RETRY_CONFIG.baseDelay RETRY_CONFIG.maxDelay 0)] } :=
  sequence_500_500_200_success RETRY_CONFIG (fun i => 0)
    { choices := [{ message := { content := "hi" } }],
      usage := { prompt_tokens := 1, completion_tokens := 1, total_tokens := 2 },
      model := "m" } (by decide)

/-- C8 counterexample: a success response whose body has no choice does
not produce an empty-text success reply — the handler's
`data.choices[0].message` access throws, surfacing a 500 failure. -/
theorem empty_choices_counterexample :
    handlePost RETRY_CONFIG
        (fun i => UpstreamEvent.response 200 "OK" none
          { choices := [],
            usage := { prompt_tokens := 1, completion_tokens := 1, total_tokens := 2 },
            model := "m" })
        (fun i => 0)
      ≠ WorkerReply.success ""
          { prompt_tokens := 1, completion_tokens := 1, total_tokens := 2 } "m" := by
  decide

/-- C8 (amended): on a success-status first response, a body with at
least one choice yields the success reply with that choice's content
plus the body's usage and model; a body with no choice makes the
handler throw a TypeError that surfaces as a 500 failure, not an
empty-text success. -/
theorem success_body_reply (cfg : RetryConfig) (up : Nat → UpstreamEvent)
    (jit : Nat → ℚ) (s : Nat) (st : String) (ra : Option String)
    (d : ResponseData) (hresp : up 0 = UpstreamEvent.response s st ra d)
    (hs1 : 200 ≤ s) (hs2 : s ≤ 299) :
    (∀ c rest, d.choices = c :: rest →
      handlePost cfg up jit
        = WorkerReply.success c.message.content d.usage d.model) ∧
    (d.choices = [] →
      handlePost cfg up jit
        = WorkerReply.failure 500 typeErrorEmptyChoicesMessage) := by
  have hok : 200 ≤ s ∧ s ≤ 299 := ⟨hs1, hs2⟩
  have hrun : (callOpenAIWithRetry cfg up jit).result = RunResult.ok d := by
    unfold callOpenAIWithRetry
    simp only [runAux, hresp]
    simp [attemptOutcome, attemptStep, hok]
  have h500 : errorStatusCode typeErrorEmptyChoicesMessage = 500 := by decide
  constructor
  · intro c rest hc
    unfold handlePost
    rw [hrun]
    simp [workerRespond, hc]
  · intro hc
    unfold handlePost
    rw [hrun]
    simp [workerRespond, hc, h500]

/-- Witness for C8 with the spec's example body on a 200 response. -/
theorem success_body_reply_witness :
    handlePost RETRY_CONFIG
        (fun i => UpstreamEvent.response 200 "OK" none
          { choices := [{ message := { content := "hi" } }],
            usage := { prompt_tokens := 1, completion_tokens := 1, total_tokens := 2 },
            model := "m" })
        (fun i => 0)
      = WorkerReply.success "hi"
          { prompt_tokens := 1, completion_tokens := 1, total_tokens := 2 } "m" :=
  (success_body_reply RETRY_CONFIG
    (fun i => UpstreamEvent.response 200 "OK" none
      { choices := [{ message := { content := "hi" } }],
        usage := { prompt_tokens := 1, completion_tokens := 1, total_tokens := 2 },
        model := "m" })
    (fun i => 0) 200 "OK" none
    { choices := [{ message := { content := "hi" } }],
      usage := { prompt_tokens := 1, completion_tokens := 1, total_tokens := 2 },
      model := "m" } rfl (by decide) (by decide)).1
    { message := { content := "hi" } } [] rfl

/-- C9 counterexample: when every attempt fails with the transport fault
message `network timeout`, the failure surfaced by the client is that
raw underlying exception message, rethrown unchanged, and the handler
maps it to the generic 500 — there is no network-error classification. -/
theorem transport_fault_surfaced_raw_counterexample :
    (callOpenAIWithRetry RETRY_CONFIG
        (fun i => UpstreamEvent.fault "network timeout") (fun i => 0)).result
      = RunResult.err "network timeout" ∧
    errorStatusCode "network timeout" = 500 := by
  constructor
  · decide
  · decide

/-- One loop-body iteration either returns the body, continues with a
wait (only possible while attempts remain), or throws a message drawn
from the current fetch outcome's status branches or fault. -/
theorem attemptStep_cases (cfg : RetryConfig) (a : Nat) (ev : UpstreamEvent)
    (j : ℚ) :
    (∃ b, attemptStep cfg a ev j = AttemptStep.ret b) ∨
    (∃ w, attemptStep cfg a ev j = AttemptStep.retryAfterWait w ∧ a < cfg.maxRetries) ∨
    (∃ m, attemptStep cfg a ev j = AttemptStep.throwErr m ∧ eventThrowMessage ev m) := by
  cases ev with
  | fault msg => exact Or.inr (Or.inr ⟨msg, rfl, rfl⟩)
  | response s st ra bd =>
    simp only [attemptStep]
    split_ifs with h1 h2 h3 h4 h5 h6
    · exact Or.inl ⟨bd, rfl⟩
    · exact Or.inr (Or.inl ⟨rateLimitWait ra a cfg j, rfl, h3⟩)
    · exact Or.inr (Or.inr ⟨rateLimitErrorMessage, rfl, Or.inl rfl⟩)
    · exact Or.inr (Or.inr ⟨authErrorMessage, rfl, Or.inr (Or.inl rfl)⟩)
    · exact Or.inr (Or.inr ⟨permissionErrorMessage, rfl, Or.inr (Or.inr (Or.inl rfl))⟩)
    · exact Or.inr (Or.inl
        ⟨JsNum.num (getBackoffDelay a cfg.baseDelay cfg.maxDelay j), rfl, h6.2⟩)
    · exact Or.inr (Or.inr ⟨apiErrorMessage s st, rfl, Or.inr (Or.inr (Or.inr rfl))⟩)

/-- The same trichotomy after the `catch` block: the catch can only turn
a throw into a retry while attempts remain, and otherwise rethrows the
same message. -/
theorem attemptOutcome_cases (cfg : RetryConfig) (a : Nat) (ev : UpstreamEvent)
    (j : ℚ) :
    (∃ b, attemptOutcome cfg a ev j = AttemptStep.ret b) ∨
    (∃ w, attemptOutcome cfg a ev j = AttemptStep.retryAfterWait w ∧ a < cfg.maxRetries) ∨
    (∃ m, attemptOutcome cfg a ev j = AttemptStep.throwErr m ∧ eventThrowMessage ev m) := by
  rcases attemptStep_cases cfg a ev j with ⟨b, hb⟩ | ⟨w, hw, haw⟩ | ⟨m, hm, hsrc⟩
  · exact Or.inl ⟨b, by simp [attemptOutcome, hb]⟩
  · exact Or.inr (Or.inl ⟨w, by simp [attemptOutcome, hw], haw⟩)
  · by_cases hc : a < cfg.maxRetries ∧
        (jsIncludes m "fetch" || jsIncludes m "network") = true
    · exact Or.inr (Or.inl
        ⟨JsNum.num (getBackoffDelay a cfg.baseDelay cfg.maxDelay j),
         by simp [attemptOutcome, hm, hc], hc.1⟩)
    · exact Or.inr (Or.inr ⟨m, by simp only [attemptOutcome, hm]; rw [if_neg hc], hsrc⟩)

/-- With the loop's fuel invariant, a run never falls off the end of the
loop, and any error it surfaces is a message some attempt's iteration
can throw for that attempt's fetch outcome. -/
theorem runAux_result_total (cfg : RetryConfig) (up : Nat → UpstreamEvent)
    (jit : Nat → ℚ) :
    ∀ f a, 0 < f → a + f = cfg.maxRetries + 1 →
      (runAux cfg up jit a f).result ≠ RunResult.loopExit ∧
      (∀ m, (runAux cfg up jit a f).result = RunResult.err m →
        ∃ i, i ≤ cfg.maxRetries ∧ eventThrowMessage (up i) m) := by
  intro f
  induction f with
  | zero => intro a h0 _; exact absurd h0 (by simp)
  | succ f ih =>
    intro a _ hsum
    rcases attemptOutcome_cases cfg a (up a) (jit a) with
      ⟨b, hb⟩ | ⟨w, hw, haw⟩ | ⟨m0, hm, hsrc⟩
    · simp only [runAux, hb]
      exact ⟨by simp, fun m hm2 => by simp at hm2⟩
    · have hrec := ih (a + 1) (by omega) (by omega)
      simp only [runAux, hw, prependWait]
      exact hrec
    · simp only [runAux, hm]
      refine ⟨by simp, fun m hm2 => ?_⟩
      have hme : m0 = m := by simpa using hm2
      exact ⟨a, by omega, hme ▸ hsrc⟩

/-- C9 (amended): every run ends by returning a body or raising a
thrown error — the loop never falls through, so no failure is
swallowed; every surfaced failure message is one of the status-branch
classified messages of some attempt or the raw message of that
attempt's transport fault; and a run whose attempts all fail with
network-class transport faults (message includes `fetch` or `network`)
uses all `maxRetries + 1` attempts and rethrows the last underlying
exception message unchanged — no network-error classification is
applied. -/
theorem transport_fault_rethrown_after_exhaust (cfg : RetryConfig)
    (up : Nat → UpstreamEvent) (jit : Nat → ℚ) :
    (callOpenAIWithRetry cfg up jit).result ≠ RunResult.loopExit ∧
    (∀ m, (callOpenAIWithRetry cfg up jit).result = RunResult.err m →
      ∃ i, i ≤ cfg.maxRetries ∧ eventThrowMessage (up i) m) ∧
    (∀ m : Nat → String,
      (∀ i, (jsIncludes (m i) "fetch" || jsIncludes (m i) "network") = true) →
      (callOpenAIWithRetry cfg (fun i => UpstreamEvent.fault (m i)) jit).result
        = RunResult.err (m cfg.maxRetries) ∧
      (callOpenAIWithRetry cfg (fun i => UpstreamEvent.fault (m i)) jit).attempts
        = cfg.maxRetries + 1) := by
  refine ⟨?_, ?_, ?_⟩
  · exact (runAux_result_total cfg up jit (cfg.maxRetries + 1) 0 (by omega) (by omega)).1
  · exact (runAux_result_total cfg up jit (cfg.maxRetries + 1) 0 (by omega) (by omega)).2
  · intro m hnet
    have hstep : ∀ a, a < cfg.maxRetries →
        ∃ w, attemptOutcome cfg a (UpstreamEvent.fault (m a)) (jit a)
          = AttemptStep.retryAfterWait w := by
      intro a ha
      refine ⟨JsNum.num (getBackoffDelay a cfg.baseDelay cfg.maxDelay (jit a)), ?_⟩
      simp [attemptOutcome, attemptStep, ha, hnet a]
    have hlast : attemptOutcome cfg cfg.maxRetries
        (UpstreamEvent.fault (m cfg.maxRetries)) (jit cfg.maxRetries)
          = AttemptStep.throwErr (m cfg.maxRetries) := by
      simp [attemptOutcome, attemptStep]
    have h := runAux_retry_exhaust cfg (fun i => UpstreamEvent.fault (m i)) jit
      (m cfg.maxRetries) hstep hlast (cfg.maxRetries + 1) 0 (by omega) (by omega)
    exact ⟨h.1, h.2⟩

/-- Witness for C9: with a constant `network timeout` fault under the
shipped configuration, the run never swallows the failure, surfaces the
raw fault message (which is indeed the message the faulting attempt
throws) after all four attempts. -/
theorem transport_fault_rethrown_after_exhaust_witness :
    (callOpenAIWithRetry RETRY_CONFIG
        (fun i => UpstreamEvent.fault "network timeout") (fun i => 0)).result
      ≠ RunResult.loopExit ∧
    (callOpenAIWithRetry RETRY_CONFIG
        (fun i => UpstreamEvent.fault "network timeout") (fun i => 0)).result
      = RunResult.err "network timeout" ∧
    (callOpenAIWithRetry RETRY_CONFIG
        (fun i => UpstreamEvent.fault "network timeout") (fun i => 0)).attempts
      = 4 ∧
    (∃ i, i ≤ RETRY_CONFIG.maxRetries ∧
      eventThrowMessage (UpstreamEvent.fault "network timeout") "network timeout") :=
  have h := transport_fault_rethrown_after_exhaust RETRY_CONFIG
    (fun i => UpstreamEvent.fault "network timeout") (fun i => 0)
  have h3 := h.2.2 (fun i => "network timeout") (fun i => rfl)
  ⟨h.1, h3.1, h3.2, h.2.1 "network timeout" h3.1⟩
